import Mathlib

/-!
Verification of the blocking TSC touch-sensing example
(`examples/stm32l0/src/bin/tsc_blocking.rs`).

The program is modelled as pure, executable Lean functions. Hardware reads
(`group_get_status`, `group_get_value`, `get_state`) are environment inputs,
supplied as streams indexed by the poll attempt (respectively by the cycle
number); every externally visible action of the program (register commands,
timer waits, status/value reads, log lines, LED updates) is recorded in an
event trace, so ordering and counting properties can be stated over traces.
-/

namespace TscBlocking

/-- Modelled from the spec: the per-group acquisition status enumeration
`GroupStatus = {Ongoing, Complete}` of the TSC HAL (the HAL itself is not part
of the sources under verification, only this example program is). -/
inductive GroupStatus where
  | Ongoing
  | Complete
  deriving DecidableEq, Repr

/-- Modelled from the spec: the controller state enumeration
`AcquisitionState = {NotReady, Ready}` (`tsc::State` in the HAL, which is not
part of the sources under verification). -/
inductive State where
  | NotReady
  | Ready
  deriving DecidableEq, Repr

/-- One externally visible action of the example program. -/
inductive Event where
  | set_active_channels_mask
  | start
  | poll_for_acquisition
  | discharge_io (enable : Bool)
  | timer_wait (ms : Nat)
  | read_status (s : GroupStatus)
  | read_value (v : Nat)
  | log_ongoing
  | log_value (v : Nat)
  | set_led (high : Bool)
  deriving DecidableEq, Repr

/-- `const SENSOR_THRESHOLD: u16 = 25;` (line 50). -/
def SENSOR_THRESHOLD : Nat := 25

/-- `const MAX_GROUP_STATUS_READ_ATTEMPTS: usize = 10;` (line 121). -/
def MAX_GROUP_STATUS_READ_ATTEMPTS : Nat := 10

/-- `let discharge_delay = 5; // ms` (line 92). -/
def discharge_delay : Nat := 5

/-- `let polling_interval = 100; // ms` (line 95). -/
def polling_interval : Nat := 100

/-- The body of `read_touch_value` (lines 128-141): the `for` loop over the
remaining attempts.  `status i` is what `group_get_status` returns on the
i-th poll of this polling sequence, `value i` what `group_get_value` would
return at that point, and `d` the argument of the `Timer::after_millis` call
in the `Ongoing` arm (1 in the source).  Returns the routine's result
together with the trace of its actions. -/
def read_touch_value_aux (status : Nat → GroupStatus) (value : Nat → Nat) (d : Nat) :
    Nat → Nat → Option Nat × List Event
  | 0, _ => (none, [])
  | fuel + 1, i =>
    match status i with
    | GroupStatus.Complete =>
        (some (value i),
         [Event.read_status GroupStatus.Complete, Event.read_value (value i)])
    | GroupStatus.Ongoing =>
        let r := read_touch_value_aux status value d fuel (i + 1)
        (r.1, Event.read_status GroupStatus.Ongoing :: Event.log_ongoing ::
              Event.timer_wait d :: r.2)

/-- `read_touch_value` (lines 124-142) with the sleep duration of the
`Ongoing` arm left as a parameter `d`; the source instantiates it with 1 ms. -/
def read_touch_value_sleep (status : Nat → GroupStatus) (value : Nat → Nat)
    (d : Nat) : Option Nat × List Event :=
  read_touch_value_aux status value d MAX_GROUP_STATUS_READ_ATTEMPTS 0

/-- `read_touch_value` (lines 124-142) exactly as in the source:
up to `MAX_GROUP_STATUS_READ_ATTEMPTS` polls of the group status; on
`Complete` return `Some(group_get_value(..))` at once; on `Ongoing` log and
sleep 1 ms; if all attempts exhaust, return `None`. -/
def read_touch_value (status : Nat → GroupStatus) (value : Nat → Nat) :
    Option Nat × List Event :=
  read_touch_value_sleep status value 1

/-- The threshold comparison of the main loop (lines 108-112):
`if v < SENSOR_THRESHOLD { led.set_high() } else { led.set_low() }`,
expressed as the boolean driven onto the LED. -/
def touch_decision (v : Nat) : Bool :=
  if v < SENSOR_THRESHOLD then true else false

/-- The `match` on the result of `read_touch_value` in the main loop
(lines 105-115): on `Some(v)` log the value and drive the LED by the
threshold decision; on `None` drive the LED low. -/
def cycle_act : Option Nat → List Event
  | some v => [Event.log_value v, Event.set_led (touch_decision v)]
  | none => [Event.set_led false]

/-- One iteration of the main `loop` (lines 98-118): set the active channel
mask, `start()`, `poll_for_acquisition()`, `discharge_io(true)`, wait
`discharge_delay` ms, run `read_touch_value`, act on its result, then wait
`polling_interval` ms. -/
def cycle_trace (status : Nat → GroupStatus) (value : Nat → Nat) : List Event :=
  [Event.set_active_channels_mask, Event.start, Event.poll_for_acquisition,
   Event.discharge_io true, Event.timer_wait discharge_delay]
  ++ (read_touch_value status value).2
  ++ cycle_act (read_touch_value status value).1
  ++ [Event.timer_wait polling_interval]

/-- The trace of `main` after a successful readiness check, through the first
`n` iterations of the loop: the LED is created with `Level::High` (line 89)
— recorded as the initial `set_led true` — and then the loop cycles run,
cycle `c` polling the streams `status c` and `value c`. -/
def main_trace (status : Nat → Nat → GroupStatus) (value : Nat → Nat → Nat) :
    Nat → List Event
  | 0 => [Event.set_led true]
  | n + 1 => main_trace status value n ++ cycle_trace (status n) (value n)

/-- Outcome of the readiness check at the top of `main`. -/
inductive InitOutcome where
  | fatalStop (msg : String)
  | enterLoop
  deriving DecidableEq, Repr

/-- `main` from the readiness check on (lines 83-118): if
`get_state() != State::Ready` the program panics with "TSC not ready!" and
produces no loop activity; otherwise it runs the loop, producing
`main_trace` (shown through `n` cycles). -/
def main_run (st : State) (status : Nat → Nat → GroupStatus)
    (value : Nat → Nat → Nat) (n : Nat) : InitOutcome × List Event :=
  if st ≠ State.Ready then (InitOutcome.fatalStop "TSC not ready!", [])
  else (InitOutcome.enterLoop, main_trace status value n)

/-- Does this event count as a group-status read? -/
def is_read_status : Event → Bool
  | Event.read_status _ => true
  | _ => false

/-- Does this event count as a timer wait? -/
def is_wait : Event → Bool
  | Event.timer_wait _ => true
  | _ => false

/-- Number of group-status reads in a trace. -/
def count_reads (l : List Event) : Nat := l.countP is_read_status

/-- Number of timer waits in a trace. -/
def count_waits (l : List Event) : Nat := l.countP is_wait

/-- Every `read_value` event in the trace immediately follows a
`read_status Complete` event. -/
def value_read_guarded : List Event → Bool
  | [] => true
  | Event.read_status GroupStatus.Complete :: Event.read_value _ :: rest =>
      value_read_guarded rest
  | Event.read_value _ :: _ => false
  | _ :: rest => value_read_guarded rest

/-- A discharge request event with `enable = false` would violate this. -/
def discharge_ok : Event → Bool
  | Event.discharge_io b => b
  | _ => true

/-- Claim C1: for every RawCount value v, the touch decision (the level
driven onto the LED when a value is read) is true iff v < SENSOR_THRESHOLD;
at the boundary, v = SENSOR_THRESHOLD - 1 yields touch and
v = SENSOR_THRESHOLD yields no-touch. -/
theorem claim_C1_threshold_decision (v : Nat) :
    cycle_act (some v) = [Event.log_value v, Event.set_led (touch_decision v)] ∧
    (touch_decision v = true ↔ v < SENSOR_THRESHOLD) ∧
    touch_decision (SENSOR_THRESHOLD - 1) = true ∧
    touch_decision SENSOR_THRESHOLD = false := by
  refine ⟨rfl, ?_, by decide, by decide⟩
  by_cases h : v < SENSOR_THRESHOLD <;> simp [touch_decision, h]

/-- If the first `j` polls (from attempt index `base`) read `Ongoing` and the
next reads `Complete`, the remaining-attempts loop returns the value read at
that point, with `j + 1` status reads and `j` waits. -/
lemma read_touch_value_aux_success (status : Nat → GroupStatus) (value : Nat → Nat)
    (d : Nat) :
    ∀ j fuel base, j < fuel →
    (∀ i, i < j → status (base + i) = GroupStatus.Ongoing) →
    status (base + j) = GroupStatus.Complete →
    (read_touch_value_aux status value d fuel base).1 = some (value (base + j)) ∧
    count_reads (read_touch_value_aux status value d fuel base).2 = j + 1 ∧
    count_waits (read_touch_value_aux status value d fuel base).2 = j := by
  intro j
  induction j with
  | zero =>
    intro fuel base hlt hong hc
    match fuel, hlt with
    | fuel + 1, _ =>
      simp only [Nat.add_zero] at hc
      simp [read_touch_value_aux, hc, count_reads, count_waits,
        List.countP_cons, is_read_status, is_wait]
  | succ j ih =>
    intro fuel base hlt hong hc
    match fuel, hlt with
    | fuel + 1, hlt =>
      have h0 : status base = GroupStatus.Ongoing := by
        have h := hong 0 (Nat.succ_pos j)
        simpa using h
      have hong1 : ∀ i, i < j → status (base + 1 + i) = GroupStatus.Ongoing := by
        intro i hi
        have h := hong (i + 1) (by omega)
        have he : base + (i + 1) = base + 1 + i := by omega
        rwa [he] at h
      have hc1 : status (base + 1 + j) = GroupStatus.Complete := by
        have he : base + (j + 1) = base + 1 + j := by omega
        rwa [he] at hc
      have ihr := ih fuel (base + 1) (by omega) hong1 hc1
      have he : base + 1 + j = base + (j + 1) := by omega
      simp only [read_touch_value_aux, h0]
      refine ⟨?_, ?_, ?_⟩
      · rw [← he]
        exact ihr.1
      · simp [count_reads, List.countP_cons, is_read_status, is_wait]
        simp only [count_reads] at ihr
        omega
      · simp [count_waits, List.countP_cons, is_read_status, is_wait]
        simp only [count_waits] at ihr
        omega

/-- If all `fuel` remaining polls read `Ongoing`, the remaining-attempts loop
returns `none`, with `fuel` status reads and `fuel` waits (one wait after
every failed attempt, the last included). -/
lemma read_touch_value_aux_timeout (status : Nat → GroupStatus) (value : Nat → Nat)
    (d : Nat) :
    ∀ fuel base, (∀ i, i < fuel → status (base + i) = GroupStatus.Ongoing) →
    (read_touch_value_aux status value d fuel base).1 = none ∧
    count_reads (read_touch_value_aux status value d fuel base).2 = fuel ∧
    count_waits (read_touch_value_aux status value d fuel base).2 = fuel := by
  intro fuel
  induction fuel with
  | zero =>
    intro base h
    simp [read_touch_value_aux, count_reads, count_waits]
  | succ fuel ih =>
    intro base h
    have h0 : status base = GroupStatus.Ongoing := by
      have hh := h 0 (Nat.succ_pos fuel)
      simpa using hh
    have ihr := ih (base + 1) (fun i hi => by
      have hh := h (i + 1) (by omega)
      have he : base + (i + 1) = base + 1 + i := by omega
      rwa [he] at hh)
    simp only [read_touch_value_aux, h0]
    refine ⟨ihr.1, ?_, ?_⟩
    · simp [count_reads, List.countP_cons, is_read_status, is_wait]
      simp only [count_reads] at ihr
      omega
    · simp [count_waits, List.countP_cons, is_read_status, is_wait]
      simp only [count_waits] at ihr
      omega

/-- Claim C2: if the group status first reads Complete on the k-th poll
(1 ≤ k ≤ MAX_GROUP_STATUS_READ_ATTEMPTS), `read_touch_value` performs exactly
k status reads, returns `Some` of the group value read at that point, and
performs no further waits (exactly k - 1 waits, all before the success; the
remaining attempts are short-circuited). -/
theorem claim_C2_complete_on_attempt_k (status : Nat → GroupStatus)
    (value : Nat → Nat) (k : Nat) (hk1 : 1 ≤ k)
    (hk2 : k ≤ MAX_GROUP_STATUS_READ_ATTEMPTS)
    (hong : ∀ i, i < k - 1 → status i = GroupStatus.Ongoing)
    (hc : status (k - 1) = GroupStatus.Complete) :
    (read_touch_value status value).1 = some (value (k - 1)) ∧
    count_reads (read_touch_value status value).2 = k ∧
    count_waits (read_touch_value status value).2 = k - 1 := by
  obtain ⟨j, rfl⟩ : ∃ j, k = j + 1 := ⟨k - 1, by omega⟩
  have hres := read_touch_value_aux_success status value 1 j
    MAX_GROUP_STATUS_READ_ATTEMPTS 0 (by omega)
    (fun i hi => by simpa using hong i (by omega))
    (by simpa using hc)
  simpa [read_touch_value, read_touch_value_sleep] using hres

/-- Witness for C2 at a concrete input: status reads Ongoing on polls 1 and 2
and Complete on poll 3, so the routine returns the value of the third read
after 3 status reads and 2 waits. -/
theorem claim_C2_witness :
    (1 ≤ 3 ∧ 3 ≤ MAX_GROUP_STATUS_READ_ATTEMPTS ∧
      (∀ i, i < 3 - 1 →
        (fun n => if n < 2 then GroupStatus.Ongoing else GroupStatus.Complete) i =
          GroupStatus.Ongoing) ∧
      (fun n => if n < 2 then GroupStatus.Ongoing else GroupStatus.Complete) (3 - 1) =
        GroupStatus.Complete) ∧
    ((read_touch_value
        (fun n => if n < 2 then GroupStatus.Ongoing else GroupStatus.Complete)
        (fun n => 10 * n)).1 = some ((fun n => 10 * n) (3 - 1)) ∧
      count_reads (read_touch_value
        (fun n => if n < 2 then GroupStatus.Ongoing else GroupStatus.Complete)
        (fun n => 10 * n)).2 = 3 ∧
      count_waits (read_touch_value
        (fun n => if n < 2 then GroupStatus.Ongoing else GroupStatus.Complete)
        (fun n => 10 * n)).2 = 3 - 1) :=
  ⟨⟨by decide, by decide, by decide, by decide⟩,
    claim_C2_complete_on_attempt_k
      (fun n => if n < 2 then GroupStatus.Ongoing else GroupStatus.Complete)
      (fun n => 10 * n) 3 (by decide) (by decide) (by decide) (by decide)⟩

/-- Counterexample to claim C3 as stated: with the status reading Ongoing on
every poll, the routine performs MAX_GROUP_STATUS_READ_ATTEMPTS waits, not
MAX_GROUP_STATUS_READ_ATTEMPTS - 1 — the source sleeps in the Ongoing arm of
every iteration, the final one included. -/
theorem claim_C3_counterexample :
    ¬ (count_waits (read_touch_value (fun _ => GroupStatus.Ongoing)
        (fun _ => 0)).2 = MAX_GROUP_STATUS_READ_ATTEMPTS - 1) := by
  decide

/-- Claim C3 (amended): if the group status reads Ongoing on every one of the
MAX_GROUP_STATUS_READ_ATTEMPTS polls, the routine performs exactly
MAX_GROUP_STATUS_READ_ATTEMPTS status reads and exactly
MAX_GROUP_STATUS_READ_ATTEMPTS waits (a wait occurs after every failed
attempt, the final one included), and returns absence (`none`), not an
error. -/
theorem claim_C3_all_ongoing (status : Nat → GroupStatus) (value : Nat → Nat)
    (hong : ∀ i, i < MAX_GROUP_STATUS_READ_ATTEMPTS →
      status i = GroupStatus.Ongoing) :
    (read_touch_value status value).1 = none ∧
    count_reads (read_touch_value status value).2 =
      MAX_GROUP_STATUS_READ_ATTEMPTS ∧
    count_waits (read_touch_value status value).2 =
      MAX_GROUP_STATUS_READ_ATTEMPTS := by
  have hres := read_touch_value_aux_timeout status value 1
    MAX_GROUP_STATUS_READ_ATTEMPTS 0 (fun i hi => by simpa using hong i hi)
  simpa [read_touch_value, read_touch_value_sleep] using hres

/-- Witness for the amended C3 at a concrete input: the constantly-Ongoing
status stream. -/
theorem claim_C3_witness :
    (∀ i, i < MAX_GROUP_STATUS_READ_ATTEMPTS →
      (fun _ => GroupStatus.Ongoing) i = GroupStatus.Ongoing) ∧
    ((read_touch_value (fun _ => GroupStatus.Ongoing) (fun _ => 0)).1 = none ∧
      count_reads (read_touch_value (fun _ => GroupStatus.Ongoing)
        (fun _ => 0)).2 = MAX_GROUP_STATUS_READ_ATTEMPTS ∧
      count_waits (read_touch_value (fun _ => GroupStatus.Ongoing)
        (fun _ => 0)).2 = MAX_GROUP_STATUS_READ_ATTEMPTS) :=
  ⟨by decide,
    claim_C3_all_ongoing (fun _ => GroupStatus.Ongoing) (fun _ => 0) (by decide)⟩

/-- The remaining-attempts loop never drives the LED: no `set_led` event
occurs in its trace. -/
lemma read_touch_value_aux_no_led (status : Nat → GroupStatus) (value : Nat → Nat)
    (d : Nat) :
    ∀ fuel base, Event.set_led true ∉ (read_touch_value_aux status value d fuel base).2 := by
  intro fuel
  induction fuel with
  | zero =>
    intro base
    simp [read_touch_value_aux]
  | succ fuel ih =>
    intro base
    cases h : status base with
    | Complete => simp [read_touch_value_aux, h]
    | Ongoing => simpa [read_touch_value_aux, h] using ih (base + 1)

/-- In the trace of the remaining-attempts loop, every `read_value` event
immediately follows a `read_status Complete` event. -/
lemma read_touch_value_aux_guarded (status : Nat → GroupStatus) (value : Nat → Nat)
    (d : Nat) :
    ∀ fuel base,
      value_read_guarded (read_touch_value_aux status value d fuel base).2 = true := by
  intro fuel
  induction fuel with
  | zero =>
    intro base
    rfl
  | succ fuel ih =>
    intro base
    cases h : status base with
    | Complete =>
      simp only [read_touch_value_aux, h]
      rfl
    | Ongoing =>
      simp only [read_touch_value_aux, h]
      exact ih (base + 1)

/-- The remaining-attempts loop issues no discharge request at all, so every
discharge event in its trace (vacuously) has `enable = true`. -/
lemma read_touch_value_aux_discharge (status : Nat → GroupStatus) (value : Nat → Nat)
    (d : Nat) :
    ∀ fuel base,
      ((read_touch_value_aux status value d fuel base).2).all discharge_ok = true := by
  intro fuel
  induction fuel with
  | zero =>
    intro base
    rfl
  | succ fuel ih =>
    intro base
    cases h : status base with
    | Complete =>
      simp only [read_touch_value_aux, h]
      rfl
    | Ongoing =>
      simp only [read_touch_value_aux, h]
      simpa [List.all_cons, discharge_ok] using ih (base + 1)

/-- Claim C4: whenever `read_touch_value` returns `none`, the cycle drives
the LED low (never high) and still ends with the idle wait, so the loop
continues with the next cycle. -/
theorem claim_C4_absence_no_touch (status : Nat → GroupStatus) (value : Nat → Nat)
    (h : (read_touch_value status value).1 = none) :
    cycle_trace status value =
      [Event.set_active_channels_mask, Event.start, Event.poll_for_acquisition,
       Event.discharge_io true, Event.timer_wait discharge_delay]
      ++ (read_touch_value status value).2
      ++ [Event.set_led false, Event.timer_wait polling_interval] ∧
    Event.set_led true ∉ cycle_trace status value := by
  have hn := read_touch_value_aux_no_led status value 1
    MAX_GROUP_STATUS_READ_ATTEMPTS 0
  have h1 : cycle_trace status value =
      [Event.set_active_channels_mask, Event.start, Event.poll_for_acquisition,
       Event.discharge_io true, Event.timer_wait discharge_delay]
      ++ (read_touch_value status value).2
      ++ [Event.set_led false, Event.timer_wait polling_interval] := by
    simp [cycle_trace, h, cycle_act]
  refine ⟨h1, ?_⟩
  rw [h1]
  intro hmem
  rcases List.mem_append.1 hmem with h2 | h2
  · rcases List.mem_append.1 h2 with h3 | h3
    · simp at h3
    · exact hn h3
  · simp at h2

/-- Witness for C4 at a concrete input: the constantly-Ongoing status stream
makes the routine return `none`, and the cycle sets the LED low. -/
theorem claim_C4_witness :
    (read_touch_value (fun _ => GroupStatus.Ongoing) (fun _ => 0)).1 = none ∧
    (cycle_trace (fun _ => GroupStatus.Ongoing) (fun _ => 0) =
      [Event.set_active_channels_mask, Event.start, Event.poll_for_acquisition,
       Event.discharge_io true, Event.timer_wait discharge_delay]
      ++ (read_touch_value (fun _ => GroupStatus.Ongoing) (fun _ => 0)).2
      ++ [Event.set_led false, Event.timer_wait polling_interval] ∧
    Event.set_led true ∉ cycle_trace (fun _ => GroupStatus.Ongoing) (fun _ => 0)) :=
  ⟨by decide,
    claim_C4_absence_no_touch (fun _ => GroupStatus.Ongoing) (fun _ => 0) (by decide)⟩

/-- Claim C5: in every run of the value-read routine, for any status and
value streams, a group value is read only immediately after a status read
of that group returned Complete in the same polling sequence — a RawCount is
never read while the group status reads Ongoing. -/
theorem claim_C5_never_read_while_ongoing (status : Nat → GroupStatus)
    (value : Nat → Nat) :
    value_read_guarded (read_touch_value status value).2 = true :=
  read_touch_value_aux_guarded status value 1 MAX_GROUP_STATUS_READ_ATTEMPTS 0

/-- Claim C6: every cycle of the loop performs, in exactly this order: set
the active channel mask, `start()`, block until the acquisition signal
(`poll_for_acquisition`), request discharge (`discharge_io(true)`), suspend
for the fixed discharge-settle duration (`discharge_delay` = 5 ms), and only
then run the bounded value-read routine. -/
theorem claim_C6_cycle_order (status : Nat → GroupStatus) (value : Nat → Nat) :
    ∃ rest, cycle_trace status value =
      Event.set_active_channels_mask :: Event.start :: Event.poll_for_acquisition ::
      Event.discharge_io true :: Event.timer_wait discharge_delay ::
      ((read_touch_value status value).2 ++ rest) := by
  refine ⟨cycle_act (read_touch_value status value).1 ++
    [Event.timer_wait polling_interval], ?_⟩
  simp [cycle_trace, List.append_assoc]

/-- Claim C7: if the hardware does not report Ready after initialization,
`main` halts at once with the fatal message "TSC not ready!" and the Touch
Decision Loop produces no activity at all, for any environment and any
number of would-be cycles. -/
theorem claim_C7_not_ready_halts (st : State) (status : Nat → Nat → GroupStatus)
    (value : Nat → Nat → Nat) (n : Nat) (h : st ≠ State.Ready) :
    main_run st status value n = (InitOutcome.fatalStop "TSC not ready!", []) := by
  simp [main_run, h]

/-- Witness for C7 at a concrete input: the NotReady state. -/
theorem claim_C7_witness :
    State.NotReady ≠ State.Ready ∧
    main_run State.NotReady (fun _ _ => GroupStatus.Ongoing) (fun _ _ => 0) 3 =
      (InitOutcome.fatalStop "TSC not ready!", []) :=
  ⟨by decide,
    claim_C7_not_ready_halts State.NotReady (fun _ _ => GroupStatus.Ongoing)
      (fun _ _ => 0) 3 (by decide)⟩

/-- The result and the read/wait counts of the remaining-attempts loop do
not depend on the sleep duration of the `Ongoing` arm. -/
lemma read_touch_value_aux_sleep_indep (status : Nat → GroupStatus)
    (value : Nat → Nat) (d1 d2 : Nat) :
    ∀ fuel base,
    (read_touch_value_aux status value d1 fuel base).1 =
      (read_touch_value_aux status value d2 fuel base).1 ∧
    count_reads (read_touch_value_aux status value d1 fuel base).2 =
      count_reads (read_touch_value_aux status value d2 fuel base).2 ∧
    count_waits (read_touch_value_aux status value d1 fuel base).2 =
      count_waits (read_touch_value_aux status value d2 fuel base).2 := by
  intro fuel
  induction fuel with
  | zero =>
    intro base
    exact ⟨rfl, rfl, rfl⟩
  | succ fuel ih =>
    intro base
    cases h : status base with
    | Complete => simp [read_touch_value_aux, h]
    | Ongoing =>
      have ihr := ih (base + 1)
      simp only [read_touch_value_aux, h]
      refine ⟨ihr.1, ?_, ?_⟩
      · simp [count_reads, List.countP_cons, is_read_status]
        simp only [count_reads] at ihr
        omega
      · simp [count_waits, List.countP_cons, is_wait]
        simp only [count_waits] at ihr
        omega

/-- Claim C8: the bounded value-read routine is a pure function of the
attempt bound and the status/value streams: the source routine is the
sleep-parametrized one at duration 1, and for any two sleep durations the
outcome, the number of status reads and the number of waits coincide —
independent of the sleep primitive and of real time. -/
theorem claim_C8_pure_function (status : Nat → GroupStatus) (value : Nat → Nat)
    (d1 d2 : Nat) :
    read_touch_value status value = read_touch_value_sleep status value 1 ∧
    (read_touch_value_sleep status value d1).1 =
      (read_touch_value_sleep status value d2).1 ∧
    count_reads (read_touch_value_sleep status value d1).2 =
      count_reads (read_touch_value_sleep status value d2).2 ∧
    count_waits (read_touch_value_sleep status value d1).2 =
      count_waits (read_touch_value_sleep status value d2).2 :=
  ⟨rfl, read_touch_value_aux_sleep_indep status value d1 d2
    MAX_GROUP_STATUS_READ_ATTEMPTS 0⟩

/-- Claim C9: the very first LED action of `main` — before any acquisition
cycle — is `set_led true` (the LED is created at `Level::High`); the trace
of any run, even with zero completed cycles, starts with it. -/
theorem claim_C9_initial_led_high (status : Nat → Nat → GroupStatus)
    (value : Nat → Nat → Nat) (n : Nat) :
    ∃ rest, main_trace status value n = Event.set_led true :: rest := by
  induction n with
  | zero => exact ⟨[], rfl⟩
  | succ n ih =>
    obtain ⟨rest, hr⟩ := ih
    exact ⟨rest ++ cycle_trace (status n) (value n), by simp [main_trace, hr]⟩

/-- Every event of a cycle trace is a permitted discharge event: the only
discharge request ever issued carries `enable = true`. -/
lemma cycle_trace_discharge (status : Nat → GroupStatus) (value : Nat → Nat) :
    (cycle_trace status value).all discharge_ok = true := by
  have hd := read_touch_value_aux_discharge status value 1
    MAX_GROUP_STATUS_READ_ATTEMPTS 0
  have ha : (cycle_act (read_touch_value status value).1).all discharge_ok = true := by
    cases (read_touch_value status value).1 with
    | none => rfl
    | some v => rfl
  simp only [cycle_trace, List.all_append, Bool.and_eq_true]
  exact ⟨⟨⟨by rfl, hd⟩, ha⟩, by rfl⟩

/-- Claim C10: the discharge request, once enabled, is never disabled: in
the whole trace of any run every discharge event has `enable = true`, and
every cycle does issue the `discharge_io(true)` request. -/
theorem claim_C10_discharge_never_disabled (status : Nat → Nat → GroupStatus)
    (value : Nat → Nat → Nat) (n : Nat) :
    (main_trace status value n).all discharge_ok = true ∧
    (∀ c : Nat, Event.discharge_io true ∈ cycle_trace (status c) (value c)) := by
  constructor
  · induction n with
    | zero => rfl
    | succ n ih =>
      simp only [main_trace, List.all_append, Bool.and_eq_true]
      exact ⟨ih, cycle_trace_discharge (status n) (value n)⟩
  · intro c
    simp [cycle_trace]

end TscBlocking
